import Mathlib

/-
Verification of the go_di_architecture module service.

Shallow embedding conventions:
  * Go strings are modelled as `List Char`; `len` on a Go string is the
    list length (byte length and rune length coincide on the ASCII inputs
    the business rules are stated over).
  * `strings.TrimSpace` is modelled over the ASCII whitespace characters
    (space, \t, \n, \v, \f, \r), the fragment Go's `unicode.IsSpace`
    covers in ASCII.
  * `strings.EqualFold` is modelled by ASCII case folding of each
    character (`foldCode`), the behaviour of Go's simple folding on ASCII.
  * `time.Now()` is passed in explicitly as an abstract clock value.
  * The in-memory repository (`module_in_memory.go`) is the authority for
    repository behaviour, as in the source wiring; its map is modelled as
    an association list and its mutex is irrelevant to the sequential
    semantics proved here.
  * `strconv.Atoi` is modelled without the int64 range bound (overflow is
    not exercised by any property below).
  * Go error values are modelled by the inductive `GoError`; `fmt.Errorf`
    with `%w` is `GoError.wrap`, and `errors.Is` is `errorsIs`.
-/

namespace GoDi

/-- ASCII whitespace test used by the model of `strings.TrimSpace`
(space, tab, newline, vertical tab, form feed, carriage return). -/
def isSpace (c : Char) : Bool :=
  c.toNat == 32 || c.toNat == 9 || c.toNat == 10 ||
  c.toNat == 11 || c.toNat == 12 || c.toNat == 13

/-- Model of Go `strings.TrimSpace`: drop whitespace from both ends. -/
def trimSpace (s : List Char) : List Char :=
  ((s.dropWhile isSpace).reverse.dropWhile isSpace).reverse

/-- ASCII case folding of one character, as a numeric code: uppercase
letters map to their lowercase code, everything else is unchanged.
This is the per-character behaviour of Go `strings.EqualFold` on ASCII. -/
def foldCode (c : Char) : Nat :=
  if 65 ≤ c.toNat ∧ c.toNat ≤ 90 then c.toNat + 32 else c.toNat

/-- Model of Go `strings.EqualFold`: equality of the case-folded strings. -/
def eqFold (a b : List Char) : Bool :=
  a.map foldCode == b.map foldCode

/-- One decimal digit of `strconv.Atoi`. -/
def digit? (c : Char) : Option Nat :=
  if 48 ≤ c.toNat ∧ c.toNat ≤ 57 then some (c.toNat - 48) else none

/-- Digit-string accumulator of the `strconv.Atoi` model. -/
def parseDigitsAux : List Char → Nat → Option Nat
  | [], acc => some acc
  | c :: rest, acc =>
    match digit? c with
    | none => none
    | some d => parseDigitsAux rest (acc * 10 + d)

/-- A non-empty all-digit string parsed to a natural number. -/
def parseDigits (s : List Char) : Option Nat :=
  if s = [] then none else parseDigitsAux s 0

/-- Model of Go `strconv.Atoi`: optional sign followed by at least one
decimal digit; anything else fails. -/
def atoi : List Char → Option Int
  | '+' :: rest => (parseDigits rest).map fun n => (n : Int)
  | '-' :: rest => (parseDigits rest).map fun n => -(n : Int)
  | s => (parseDigits s).map fun n => (n : Int)

/-- Go error values relevant to this program.  The five sentinel errors of
the service, the repository's `errors.New("invalid ID format")`, arbitrary
other errors (e.g. storage faults), and `fmt.Errorf("...: %w", err)`
wrapping. -/
inductive GoError where
  | nameRequired
  | nameLength
  | nameExists
  | descriptionLength
  | notFound
  | invalidIdFormat
  | other (msg : String)
  | wrap (msg : String) (inner : GoError)
deriving DecidableEq, Repr

/-- The five sentinel errors `handleServiceError` matches with `errors.Is`. -/
inductive Sentinel where
  | nameRequired
  | nameLength
  | nameExists
  | descriptionLength
  | notFound
deriving DecidableEq, Repr

/-- Model of `errors.Is(err, sentinel)`: the sentinel is the error itself
or appears under `%w` wrapping. -/
def errorsIs : GoError → Sentinel → Bool
  | .nameRequired, .nameRequired => true
  | .nameLength, .nameLength => true
  | .nameExists, .nameExists => true
  | .descriptionLength, .descriptionLength => true
  | .notFound, .notFound => true
  | .wrap _ e, t => errorsIs e t
  | _, _ => false

/-- Rendering of a Go error's message (`err.Error()`); a wrapped error
prints its prefix followed by the inner message, as `fmt.Errorf` does. -/
def GoError.message : GoError → String
  | .nameRequired => "module name is required"
  | .nameLength => "name must be 3-50 characters"
  | .nameExists => "module name already exists"
  | .descriptionLength => "description exceeds 200 characters"
  | .notFound => "module not found"
  | .invalidIdFormat => "invalid ID format"
  | .other m => m
  | .wrap m e => m ++ e.message

/-- The persisted Module entity (`internal/domain/models/module`). -/
structure Module where
  id : Int
  name : List Char
  description : List Char
  isActive : Bool
  createdAt : Int
deriving DecidableEq, Repr

/-- The inbound creation DTO. -/
structure ModuleRequest where
  name : List Char
  description : List Char
  isActive : Bool
deriving DecidableEq, Repr

/-- The outbound DTO mirroring the entity. -/
structure ModuleResponse where
  id : Int
  name : List Char
  description : List Char
  isActive : Bool
  createdAt : Int
deriving DecidableEq, Repr

/-- State of the in-memory repository (`module_in_memory.go`): the
`map[int]*module.Module` as an association list plus the auto-increment
counter. -/
structure ModuleRepository where
  data : List (Int × Module)
  autoIncrementID : Int
deriving DecidableEq, Repr

/-- `NewModuleRepository`: empty map, counter starts at 1. -/
def NewModuleRepository : ModuleRepository :=
  { data := [], autoIncrementID := 1 }

/-- Lookup in the modelled map (`r.data[moduleID]`). -/
def dataLookup (l : List (Int × Module)) (k : Int) : Option Module :=
  (l.find? fun p => p.1 == k).map fun p => p.2

/-- Repository `CreateModule`: assign the counter as the id, store the
entity under that key, bump the counter.  The in-memory implementation
never returns an error. -/
def ModuleRepository.CreateModule (r : ModuleRepository) (m : Module) :
    Except GoError Module × ModuleRepository :=
  let assigned := { m with id := r.autoIncrementID }
  (.ok assigned,
   { data := (r.autoIncrementID, assigned) :: r.data,
     autoIncrementID := r.autoIncrementID + 1 })

/-- The boolean scan inside repository `IsModuleNameExists`: some stored
entry has a case-insensitively equal name and a key different from
`excludeId`. -/
def ModuleRepository.nameExistsB (r : ModuleRepository) (name : List Char)
    (excludeId : Int) : Bool :=
  r.data.any fun p => eqFold p.2.name name && p.1 != excludeId

/-- Repository `IsModuleNameExists`: case-insensitive scan over all
stored entries; never returns an error. -/
def ModuleRepository.IsModuleNameExists (r : ModuleRepository)
    (name : List Char) (excludeId : Int) : Except GoError Bool :=
  .ok (r.nameExistsB name excludeId)

/-- Repository `GetModuleById`: `strconv.Atoi` failure is the distinct
`invalid ID format` error; a well-formed id that is not a key yields
`none` with no error. -/
def ModuleRepository.GetModuleById (r : ModuleRepository) (id : List Char) :
    Except GoError (Option Module) :=
  match atoi id with
  | none => .error .invalidIdFormat
  | some n => .ok (dataLookup r.data n)

/-- Service `CreateModule` (`module_service.go`): the four business checks
in source order, then persistence; repository faults are wrapped with
`fmt.Errorf("...: %w", err)`.  The repository state is threaded
explicitly. -/
def ModuleService.CreateModule (s : ModuleRepository) (req : ModuleRequest)
    (now : Int) : Except GoError ModuleResponse × ModuleRepository :=
  if trimSpace req.name = [] then (.error .nameRequired, s)
  else if req.name.length < 3 ∨ 50 < req.name.length then (.error .nameLength, s)
  else
    match s.IsModuleNameExists req.name 0 with
    | .error e => (.error (.wrap "database error checking name: " e), s)
    | .ok true => (.error .nameExists, s)
    | .ok false =>
      if 200 < req.description.length then (.error .descriptionLength, s)
      else
        match s.CreateModule
            { id := 0, name := req.name, description := req.description,
              isActive := req.isActive, createdAt := now } with
        | (.error e, s') => (.error (.wrap "database error creating module: " e), s')
        | (.ok saved, s') =>
          (.ok { id := saved.id, name := saved.name,
                 description := saved.description, isActive := saved.isActive,
                 createdAt := saved.createdAt }, s')

/-- Service `GetModuleById`: repository errors propagate unchanged; an
absent result becomes the distinct `ErrNotFound`. -/
def ModuleService.GetModuleById (s : ModuleRepository) (id : List Char) :
    Except GoError ModuleResponse :=
  match s.GetModuleById id with
  | .error e => .error e
  | .ok none => .error .notFound
  | .ok (some m) =>
    .ok { id := m.id, name := m.name, description := m.description,
          isActive := m.isActive, createdAt := m.createdAt }

/-- Standardized error information (`APIError`).  The `details` field is
Go's `map[string][]string` with `omitempty`, modelled as an optional
association list. -/
structure APIError where
  code : String
  message : String
  details : Option (List (String × List String))
deriving DecidableEq, Repr

/-- Response metadata: request id and timestamp (the timestamp is the
abstract clock value passed to the constructor). -/
structure ResponseMeta where
  requestId : String
  timestamp : Int
deriving DecidableEq, Repr

/-- The uniform response envelope (`APIResponse`).  `Data` is Go's
`interface{}` with `omitempty`: `none` models a nil payload, which the
JSON encoder omits. -/
structure APIResponse (α : Type) where
  success : Bool
  message : String
  data : Option α
  error : Option APIError
  meta : ResponseMeta
deriving DecidableEq, Repr

/-- `StatusToMessage`: canonical message for each status code. -/
def StatusToMessage (statusCode : Nat) : String :=
  if statusCode == 200 then "Operation completed successfully"
  else if statusCode == 201 then "Resource created successfully"
  else if statusCode == 400 then "Invalid request parameters"
  else if statusCode == 404 then "Resource not found"
  else if statusCode == 409 then "Resource already exists"
  else "An unexpected error occurred"

/-- The response mapper holds the request id stamped into every response. -/
structure ResponseMapper where
  requestID : String
deriving DecidableEq, Repr

/-- `ResponseMapper.Success`: success envelope with the data payload, no
error, and metadata; returns the envelope and the status code. -/
def ResponseMapper.Success (m : ResponseMapper) (data : Option α)
    (message : String) (statusCode : Nat) (now : Int) : APIResponse α × Nat :=
  ({ success := true, message := message, data := data, error := none,
     meta := { requestId := m.requestID, timestamp := now } }, statusCode)

/-- `ResponseMapper.Error`: failure envelope with a freshly constructed
`APIError`, no data, and metadata. -/
def ResponseMapper.Error (m : ResponseMapper) (code message : String)
    (details : Option (List (String × List String))) (statusCode : Nat)
    (now : Int) : APIResponse α × Nat :=
  ({ success := false, message := message, data := none,
     error := some { code := code, message := message, details := details },
     meta := { requestId := m.requestID, timestamp := now } }, statusCode)

/-- `NewErrorResponse` (package-level constructor used by the exception
middleware). -/
def NewErrorResponse (code message : String)
    (details : Option (List (String × List String))) (requestId : String)
    (now : Int) : APIResponse α :=
  { success := false, message := message, data := none,
    error := some { code := code, message := message, details := details },
    meta := { requestId := requestId, timestamp := now } }

/-- `handleServiceError` (`module_handler.go`): the `errors.Is` switch
choosing status and code, the validation `details` map, and the final
`mapper.Error` call; returns the envelope and the status code sent. -/
def handleServiceError (err : GoError) (mapper : ResponseMapper) (now : Int) :
    APIResponse Unit × Nat :=
  let sc :=
    if errorsIs err .nameRequired || errorsIs err .nameLength
        || errorsIs err .descriptionLength then
      (400, "VALIDATION_ERROR")
    else if errorsIs err .nameExists then (409, "RESOURCE_CONFLICT")
    else if errorsIs err .notFound then (404, "NOT_FOUND")
    else (500, "INTERNAL_ERROR")
  let details : Option (List (String × List String)) :=
    if sc.1 == 400 then some [("name", [err.message])] else none
  mapper.Error sc.2 (StatusToMessage sc.1) details sc.1 now

/-- The recovery branch of `ExceptionHandler` (`exception_middleware.go`):
given the recovered panic value and the request id, the envelope and
status sent to the caller.  The panic value is only logged; the source
builds the envelope from constants. -/
def ExceptionHandler.recoverResponse (panicVal : String) (requestID : String)
    (now : Int) : APIResponse Unit × Nat :=
  (NewErrorResponse "INTERNAL_ERROR" (StatusToMessage 500) none requestID now,
   500)

/-- `handleError` (`exception_middleware.go`): rendering of an error
attached to the gin context, parameterised by the already-written response
status; the error's message is placed in the details map. -/
def Middleware.handleError (writerStatus : Nat) (err : GoError)
    (requestID : String) (now : Int) : APIResponse Unit × Nat :=
  let statusCode := if writerStatus == 200 then 500 else writerStatus
  (NewErrorResponse "INTERNAL_ERROR" (StatusToMessage statusCode)
     (some [("error", [err.message])]) requestID now,
   statusCode)

/-- Repository states reachable from `NewModuleRepository` by repository
calls.  Only `CreateModule` mutates the state; `IsModuleNameExists` and
`GetModuleById` are read-only in the model, so they contribute no step. -/
inductive Reachable : ModuleRepository → Prop where
  | new : Reachable NewModuleRepository
  | create (s : ModuleRepository) (m : Module) (h : Reachable s) :
      Reachable (s.CreateModule m).2

/-- The repository representation invariant: the counter is at least 1,
every key carries the module whose `id` equals that key, and every key
lies in `[1, autoIncrementID)`. -/
def RepoInv (r : ModuleRepository) : Prop :=
  1 ≤ r.autoIncrementID ∧
    ∀ p ∈ r.data, p.2.id = p.1 ∧ 1 ≤ p.1 ∧ p.1 < r.autoIncrementID

theorem reachable_inv {s : ModuleRepository} (h : Reachable s) : RepoInv s := by
  induction h with
  | new => exact ⟨le_refl 1, by intro p hp; simp [NewModuleRepository] at hp⟩
  | create s m _ ih =>
    obtain ⟨hctr, hdata⟩ := ih
    refine ⟨?_, ?_⟩
    · simp only [ModuleRepository.CreateModule]
      omega
    · intro p hp
      simp only [ModuleRepository.CreateModule, List.mem_cons] at hp ⊢
      rcases hp with hp | hp
      · subst hp; exact ⟨rfl, hctr, by omega⟩
      · obtain ⟨h1, h2, h3⟩ := hdata p hp
        exact ⟨h1, h2, by omega⟩

theorem trimSpace_eq_nil_iff (s : List Char) :
    trimSpace s = [] ↔ ∀ c ∈ s, isSpace c = true := by
  constructor
  · intro h c hc
    unfold trimSpace at h
    rw [List.reverse_eq_nil_iff, List.dropWhile_eq_nil_iff] at h
    have hsplit : s.takeWhile isSpace ++ s.dropWhile isSpace = s :=
      List.takeWhile_append_dropWhile isSpace s
    rw [← hsplit] at hc
    rcases List.mem_append.1 hc with h1 | h2
    · exact List.mem_takeWhile_imp h1
    · exact h c (List.mem_reverse.2 h2)
  · intro h
    have hd : s.dropWhile isSpace = [] := List.dropWhile_eq_nil_iff.2 h
    simp [trimSpace, hd]

theorem isSpace_iff_foldCode (c : Char) :
    isSpace c = true ↔
      (foldCode c = 32 ∨ foldCode c = 9 ∨ foldCode c = 10 ∨
       foldCode c = 11 ∨ foldCode c = 12 ∨ foldCode c = 13) := by
  unfold isSpace foldCode
  split <;> simp <;> omega

theorem eqFold_eq_map (a b : List Char) (h : eqFold a b = true) :
    a.map foldCode = b.map foldCode := by
  simpa [eqFold] using h

theorem eqFold_length (a b : List Char) (h : eqFold a b = true) :
    a.length = b.length := by
  have hm := eqFold_eq_map a b h
  have := congrArg List.length hm
  simpa using this

theorem all_isSpace_iff_map (a : List Char) :
    (∀ c ∈ a, isSpace c = true) ↔
      (∀ n ∈ a.map foldCode,
        n = 32 ∨ n = 9 ∨ n = 10 ∨ n = 11 ∨ n = 12 ∨ n = 13) := by
  constructor
  · intro h n hn
    rcases List.mem_map.1 hn with ⟨c, hc, rfl⟩
    exact (isSpace_iff_foldCode c).1 (h c hc)
  · intro h c hc
    exact (isSpace_iff_foldCode c).2 (h (foldCode c) (List.mem_map_of_mem foldCode hc))

theorem eqFold_trim_nil (a b : List Char) (h : eqFold a b = true) :
    (trimSpace a = [] ↔ trimSpace b = []) := by
  rw [trimSpace_eq_nil_iff, trimSpace_eq_nil_iff,
      all_isSpace_iff_map, all_isSpace_iff_map, eqFold_eq_map a b h]

/-- Closed form of the service's create pipeline: the source's cascade of
checks, with the in-memory repository's always-successful persistence
inlined. -/
theorem createModule_unfold (s : ModuleRepository) (req : ModuleRequest) (now : Int) :
    ModuleService.CreateModule s req now =
      if trimSpace req.name = [] then (.error .nameRequired, s)
      else if req.name.length < 3 ∨ 50 < req.name.length then (.error .nameLength, s)
      else if s.nameExistsB req.name 0 = true then (.error .nameExists, s)
      else if 200 < req.description.length then (.error .descriptionLength, s)
      else (.ok { id := s.autoIncrementID, name := req.name,
                  description := req.description, isActive := req.isActive,
                  createdAt := now },
            { data := (s.autoIncrementID,
                       { id := s.autoIncrementID, name := req.name,
                         description := req.description, isActive := req.isActive,
                         createdAt := now }) :: s.data,
              autoIncrementID := s.autoIncrementID + 1 }) := by
  unfold ModuleService.CreateModule
  simp only [ModuleRepository.IsModuleNameExists]
  rcases hb : s.nameExistsB req.name 0 with _ | _
  · simp [hb, ModuleRepository.CreateModule]
  · simp [hb]

/-- C1 counterexample: the name consisting of a space, the letter a and a
space has untrimmed length 3 but trimmed length 1; the claim demands the
name-length rejection, yet CreateModule succeeds, because the code
measures the untrimmed length. -/
theorem c1_counterexample :
    (trimSpace " a ".toList).length = 1 ∧
    (ModuleService.CreateModule NewModuleRepository
        { name := " a ".toList, description := [], isActive := true } 0).1 =
      .ok { id := 1, name := " a ".toList, description := [],
            isActive := true, createdAt := 0 } := by
  constructor <;> rfl

/-- C1 (amended): for every creation request whose name is non-empty
after trimming, CreateModule returns ErrNameLength iff the UNTRIMMED
length of the name is outside [3, 50]; in particular exactly 3 or 50
characters pass this check while 2 or 51 are rejected, and a name whose
untrimmed length lies in [3, 50] passes the check even when its trimmed
length falls outside. -/
theorem c1_name_length_untrimmed (s : ModuleRepository) (req : ModuleRequest)
    (now : Int) (h : trimSpace req.name ≠ []) :
    (ModuleService.CreateModule s req now).1 = .error .nameLength ↔
      (req.name.length < 3 ∨ 50 < req.name.length) := by
  rw [createModule_unfold, if_neg h]
  by_cases hlen : req.name.length < 3 ∨ 50 < req.name.length
  · simp [hlen]
  · rw [if_neg hlen]
    simp only [hlen, iff_false]
    split_ifs <;> simp

/-- C1 witness: the 2-character name ab (trimmed non-empty) instantiates
the amended theorem. -/
theorem c1_witness :
    (ModuleService.CreateModule NewModuleRepository
        { name := "ab".toList, description := [], isActive := true } 0).1 =
      .error .nameLength ↔
      ("ab".toList.length < 3 ∨ 50 < "ab".toList.length) :=
  c1_name_length_untrimmed NewModuleRepository
    { name := "ab".toList, description := [], isActive := true } 0 (by decide)

/-- C6: once the name checks have passed, CreateModule returns
ErrDescriptionLength iff the description length exceeds 200, and the
handler surfaces ErrDescriptionLength as 400 with code VALIDATION_ERROR. -/
theorem c6_description_length (s : ModuleRepository) (req : ModuleRequest)
    (now : Int) (h1 : trimSpace req.name ≠ [])
    (h2 : ¬(req.name.length < 3 ∨ 50 < req.name.length))
    (h3 : s.nameExistsB req.name 0 = false) :
    ((ModuleService.CreateModule s req now).1 = .error .descriptionLength ↔
      200 < req.description.length) ∧
    ∀ (mapper : ResponseMapper) (t : Int),
      (handleServiceError .descriptionLength mapper t).2 = 400 ∧
      ∃ ae : APIError,
        (handleServiceError .descriptionLength mapper t).1.error = some ae ∧
        ae.code = "VALIDATION_ERROR" := by
  constructor
  · rw [createModule_unfold, if_neg h1, if_neg h2, if_neg (by simp [h3])]
    by_cases hd : 200 < req.description.length
    · simp [hd]
    · simp [hd]
  · intro mapper t
    exact ⟨rfl, ⟨_, rfl, rfl⟩⟩

/-- C6 witness: the name abc with a 201-character description is rejected
with the description-length error; the instantiated iff and the handler
mapping follow from the theorem at that input. -/
theorem c6_witness :
    ((ModuleService.CreateModule NewModuleRepository
        { name := "abc".toList, description := List.replicate 201 'x',
          isActive := true } 0).1 = .error .descriptionLength ↔
      200 < (List.replicate 201 'x').length) ∧
    ∀ (mapper : ResponseMapper) (t : Int),
      (handleServiceError .descriptionLength mapper t).2 = 400 ∧
      ∃ ae : APIError,
        (handleServiceError .descriptionLength mapper t).1.error = some ae ∧
        ae.code = "VALIDATION_ERROR" :=
  c6_description_length NewModuleRepository
    { name := "abc".toList, description := List.replicate 201 'x',
      isActive := true } 0 (by decide) (by decide) (by decide)

/-- C10: whenever CreateModule returns one of the four business-rule
errors, the repository state is unchanged: the persistence step was never
reached. -/
theorem c10_atomic_on_business_errors (s : ModuleRepository)
    (req : ModuleRequest) (now : Int) (e : GoError)
    (he : (ModuleService.CreateModule s req now).1 = .error e)
    (hb : e = .nameRequired ∨ e = .nameLength ∨ e = .nameExists ∨
      e = .descriptionLength) :
    (ModuleService.CreateModule s req now).2 = s := by
  rw [createModule_unfold] at he ⊢
  split_ifs at he ⊢ <;> simp_all

/-- C10 witness: an all-whitespace name fails with ErrNameRequired and
leaves the fresh repository untouched. -/
theorem c10_witness :
    (ModuleService.CreateModule NewModuleRepository
        { name := " ".toList, description := [], isActive := true } 0).2 =
      NewModuleRepository :=
  c10_atomic_on_business_errors NewModuleRepository
    { name := " ".toList, description := [], isActive := true } 0
    .nameRequired rfl (Or.inl rfl)

/-- The root of an error's `%w` wrap chain. -/
def rootErr : GoError → GoError
  | .wrap _ e => rootErr e
  | e => e

/-- Spec-side translation table of section 4.4: status and code per root
error; anything other than the five named conditions is 500
INTERNAL_ERROR. -/
def specErrorTable : GoError → Nat × String
  | .nameRequired => (400, "VALIDATION_ERROR")
  | .nameLength => (400, "VALIDATION_ERROR")
  | .descriptionLength => (400, "VALIDATION_ERROR")
  | .nameExists => (409, "RESOURCE_CONFLICT")
  | .notFound => (404, "NOT_FOUND")
  | _ => (500, "INTERNAL_ERROR")

theorem errorsIs_rootErr (e : GoError) (t : Sentinel) :
    errorsIs e t = errorsIs (rootErr e) t := by
  induction e with
  | wrap m inner ih => exact ih
  | nameRequired => rfl
  | nameLength => rfl
  | nameExists => rfl
  | descriptionLength => rfl
  | notFound => rfl
  | invalidIdFormat => rfl
  | other msg => rfl

theorem rootErr_not_wrap (e : GoError) (m : String) (i : GoError) :
    rootErr e ≠ .wrap m i := by
  induction e <;> simp_all [rootErr]

/-- C2: the handler's service-error translation matches the spec's fixed
table on the root of the error's wrap chain: the three validation
sentinels map to 400 VALIDATION_ERROR, ErrNameExists to 409
RESOURCE_CONFLICT, ErrNotFound to 404 NOT_FOUND, and every other error —
including wrapped storage faults — to 500 INTERNAL_ERROR. -/
theorem c2_handler_error_table (err : GoError) (mapper : ResponseMapper)
    (now : Int) :
    (handleServiceError err mapper now).2 = (specErrorTable (rootErr err)).1 ∧
    ∃ ae : APIError,
      (handleServiceError err mapper now).1.error = some ae ∧
      ae.code = (specErrorTable (rootErr err)).2 := by
  have h1 := errorsIs_rootErr err .nameRequired
  have h2 := errorsIs_rootErr err .nameLength
  have h3 := errorsIs_rootErr err .descriptionLength
  have h4 := errorsIs_rootErr err .nameExists
  have h5 := errorsIs_rootErr err .notFound
  rcases hr : rootErr err with _ | _ | _ | _ | _ | _ | msg | ⟨m, i⟩
  all_goals rw [hr] at h1 h2 h3 h4 h5
  all_goals first
    | exact absurd hr (rootErr_not_wrap err m i)
    | simp [handleServiceError, h1, h2, h3, h4, h5, errorsIs,
        specErrorTable, ResponseMapper.Error]

/-- C7 counterexample: the Success constructor accepts a nil data payload
(Go's nil interface value), and the resulting envelope populates neither
the data field nor the error field, contradicting "never neither" over
every accepted argument combination. -/
theorem c7_counterexample :
    ((ResponseMapper.mk "rid").Success (none : Option Unit) "ok" 200 0).1.data
        = none ∧
    ((ResponseMapper.mk "rid").Success (none : Option Unit) "ok" 200 0).1.error
        = none := by
  exact ⟨rfl, rfl⟩

/-- C7 (amended): for every NON-NIL data argument, Success yields
Success=true with the data present and no error; Error yields
Success=false with an error present and no data for every argument
combination; only Success applied to a nil data payload produces an
envelope with neither field populated. -/
theorem c7_exactly_one_populated {α : Type} (m : ResponseMapper) (d : α)
    (msg : String) (code : Nat) (now : Int) (ecode emsg : String)
    (details : Option (List (String × List String))) :
    ((m.Success (some d) msg code now).1.success = true ∧
     (m.Success (some d) msg code now).1.data = some d ∧
     (m.Success (some d) msg code now).1.error = none) ∧
    ((m.Error ecode emsg details code now : APIResponse α × Nat).1.success
        = false ∧
     (m.Error ecode emsg details code now : APIResponse α × Nat).1.data
        = none ∧
     ∃ ae : APIError,
       (m.Error ecode emsg details code now : APIResponse α × Nat).1.error
         = some ae) := by
  exact ⟨⟨rfl, rfl, rfl⟩, ⟨rfl, rfl, ⟨_, rfl⟩⟩⟩

/-- C8 counterexample: two runs of the middleware's context-error path
differing only in the attached error's message produce different envelope
bodies with the same request id and timestamp — the fault detail is
embedded in the details field, so the envelope is not independent of the
fault's content. -/
theorem c8_counterexample :
    Middleware.handleError 200 (.other "fault detail A") "rid" 0 ≠
      Middleware.handleError 200 (.other "fault detail B") "rid" 0 := by
  decide

/-- C8 (amended): the panic-recovery path's envelope is independent of the
panic value — two runs differing only in the panic value produce the same
500 envelope with code INTERNAL_ERROR, no data and no details — while the
context-error path embeds the attached error's message in the details
field of its envelope. -/
theorem c8_panic_envelope_independent (v1 v2 rid : String) (now : Int)
    (ws : Nat) (err : GoError) :
    ExceptionHandler.recoverResponse v1 rid now =
      ExceptionHandler.recoverResponse v2 rid now ∧
    (ExceptionHandler.recoverResponse v1 rid now).2 = 500 ∧
    (ExceptionHandler.recoverResponse v1 rid now).1.data = none ∧
    (ExceptionHandler.recoverResponse v1 rid now).1.error =
      some { code := "INTERNAL_ERROR", message := StatusToMessage 500,
             details := none } ∧
    (Middleware.handleError ws err rid now).1.error =
      some { code := "INTERNAL_ERROR",
             message := StatusToMessage (if ws == 200 then 500 else ws),
             details := some [("error", [err.message])] } := by
  exact ⟨rfl, rfl, rfl, rfl, rfl⟩

/-- C4: the repository's GetModuleById distinguishes malformed ids (a
distinct error), well-formed ids with no record (absent, no error), and
the service — not the repository — converts absent into ErrNotFound while
propagating repository errors unchanged. -/
theorem c4_get_module_trichotomy (s : ModuleRepository) (id : List Char) :
    (atoi id = none →
      s.GetModuleById id = .error .invalidIdFormat ∧
      ModuleService.GetModuleById s id = .error .invalidIdFormat) ∧
    (∀ n : Int, atoi id = some n → dataLookup s.data n = none →
      s.GetModuleById id = .ok none ∧
      ModuleService.GetModuleById s id = .error .notFound) ∧
    (∀ e : GoError, s.GetModuleById id = .error e →
      ModuleService.GetModuleById s id = .error e) ∧
    GoError.invalidIdFormat ≠ GoError.notFound := by
  refine ⟨?_, ?_, ?_, by decide⟩
  · intro h
    simp [ModuleRepository.GetModuleById, ModuleService.GetModuleById, h]
  · intro n h hl
    simp [ModuleRepository.GetModuleById, ModuleService.GetModuleById, h, hl]
  · intro e h
    simp [ModuleService.GetModuleById, h]

/-- C4 witness: on the fresh repository, the non-numeric id abc yields the
invalid-format error from the repository, and the well-formed id 7 yields
absent from the repository and ErrNotFound from the service. -/
theorem c4_witness :
    ModuleRepository.GetModuleById NewModuleRepository "abc".toList =
      .error .invalidIdFormat ∧
    ModuleRepository.GetModuleById NewModuleRepository "7".toList = .ok none ∧
    ModuleService.GetModuleById NewModuleRepository "7".toList =
      .error .notFound := by
  have h1 := c4_get_module_trichotomy NewModuleRepository "abc".toList
  have h2 := c4_get_module_trichotomy NewModuleRepository "7".toList
  exact ⟨(h1.1 rfl).1, (h2.2.1 7 rfl rfl).1, (h2.2.1 7 rfl rfl).2⟩

theorem any_and_ne_zero (l : List (Int × Module)) (f : Int × Module → Bool)
    (h₀ : ∀ p ∈ l, p.1 ≠ (0 : Int)) :
    (l.any fun p => f p && p.1 != 0) = l.any f := by
  induction l with
  | nil => rfl
  | cons hd tl ih =>
    have hne : (hd.1 != (0 : Int)) = true := by
      simpa using h₀ hd (List.mem_cons_self hd tl)
    simp [List.any_cons, hne,
      ih fun p hp => h₀ p (List.mem_cons_of_mem hd hp)]

/-- Spec-side validation pipeline of section 4.3: the four business rules
in the spec's order, failing fast with the first violated rule's error.
The individual predicates are the code's checks (their exact content is
settled by C1 and C6); the uniqueness rule is the spec's "must not already
exist case-insensitively, excluding none". -/
def specFirstViolation (s : ModuleRepository) (req : ModuleRequest) :
    Option GoError :=
  if trimSpace req.name = [] then some .nameRequired
  else if req.name.length < 3 ∨ 50 < req.name.length then some .nameLength
  else if s.data.any (fun p => eqFold p.2.name req.name) then some .nameExists
  else if 200 < req.description.length then some .descriptionLength
  else none

/-- C5: on every reachable repository state, CreateModule's outcome is
exactly the spec's fail-fast pipeline: the single error returned is the
first violated rule in the order name-required, name-length,
name-uniqueness, description-length; with no violation the create
succeeds.  In particular a duplicate name together with an overlong
description yields ErrNameExists alone. -/
theorem c5_failfast_order (s : ModuleRepository) (hs : Reachable s)
    (req : ModuleRequest) (now : Int) :
    (ModuleService.CreateModule s req now).1 =
      match specFirstViolation s req with
      | some e => Except.error e
      | none => Except.ok { id := s.autoIncrementID, name := req.name,
                            description := req.description,
                            isActive := req.isActive, createdAt := now } := by
  have hz : ∀ p ∈ s.data, p.1 ≠ (0 : Int) := by
    intro p hp
    have h1 := ((reachable_inv hs).2 p hp).2.1
    omega
  have hx : s.nameExistsB req.name 0 =
      s.data.any fun p => eqFold p.2.name req.name := by
    simpa [ModuleRepository.nameExistsB] using
      any_and_ne_zero s.data (fun p => eqFold p.2.name req.name) hz
  rw [createModule_unfold]
  unfold specFirstViolation
  rw [hx]
  split_ifs <;> rfl

/-- C5 witness: instantiation at the fresh repository and a plain valid
request. -/
theorem c5_witness :
    (ModuleService.CreateModule NewModuleRepository
        { name := "abc".toList, description := [], isActive := true } 0).1 =
      match specFirstViolation NewModuleRepository
          { name := "abc".toList, description := [], isActive := true } with
      | some e => Except.error e
      | none => Except.ok { id := NewModuleRepository.autoIncrementID,
                            name := "abc".toList, description := [],
                            isActive := true, createdAt := 0 } :=
  c5_failfast_order NewModuleRepository Reachable.new
    { name := "abc".toList, description := [], isActive := true } 0

/-- C9: in every reachable repository state, every map key equals the ID
of the module stored under it, every key lies in [1, autoIncrementID),
and a CreateModule call assigns the current counter — positive and
distinct from every stored id — as the new id and bumps the counter, so
ids strictly increase across successive creates. -/
theorem c9_repo_invariant (s : ModuleRepository) (h : Reachable s) :
    (1 ≤ s.autoIncrementID ∧
      ∀ p ∈ s.data, p.2.id = p.1 ∧ 1 ≤ p.1 ∧ p.1 < s.autoIncrementID) ∧
    ∀ m : Module,
      (s.CreateModule m).1 = .ok { m with id := s.autoIncrementID } ∧
      1 ≤ s.autoIncrementID ∧
      (∀ p ∈ s.data, p.1 ≠ s.autoIncrementID) ∧
      ((s.CreateModule m).2).autoIncrementID = s.autoIncrementID + 1 := by
  obtain ⟨h1, h2⟩ := reachable_inv h
  refine ⟨⟨h1, h2⟩, ?_⟩
  intro m
  refine ⟨rfl, h1, ?_, rfl⟩
  intro p hp
  have h3 := (h2 p hp).2.2
  omega

/-- C9 witness: the fresh repository satisfies the invariant and assigns
id 1 to the first created module. -/
theorem c9_witness :
    1 ≤ NewModuleRepository.autoIncrementID ∧
    (NewModuleRepository.CreateModule
        { id := 0, name := "abc".toList, description := [],
          isActive := true, createdAt := 0 }).1 =
      .ok { id := 1, name := "abc".toList, description := [],
            isActive := true, createdAt := 0 } := by
  have h := c9_repo_invariant NewModuleRepository Reachable.new
  exact ⟨h.1.1, (h.2 { id := 0, name := "abc".toList, description := [],
                       isActive := true, createdAt := 0 }).1⟩

/-- C3: if a create succeeded on a reachable state, a second create whose
name is equal case-insensitively to the first returns ErrNameExists,
because the repository's scan matches names case-insensitively against
all stored entries. -/
theorem c3_case_insensitive_conflict (s : ModuleRepository)
    (hs : Reachable s) (req1 req2 : ModuleRequest) (now1 now2 : Int)
    (resp : ModuleResponse) (s' : ModuleRepository)
    (h1 : ModuleService.CreateModule s req1 now1 = (.ok resp, s'))
    (hfold : eqFold req1.name req2.name = true) :
    (ModuleService.CreateModule s' req2 now2).1 = .error .nameExists := by
  rw [createModule_unfold] at h1
  by_cases ht : trimSpace req1.name = []
  · rw [if_pos ht] at h1
    exact absurd h1 (by simp [Prod.ext_iff])
  rw [if_neg ht] at h1
  by_cases hl : req1.name.length < 3 ∨ 50 < req1.name.length
  · rw [if_pos hl] at h1
    exact absurd h1 (by simp [Prod.ext_iff])
  rw [if_neg hl] at h1
  by_cases hex : s.nameExistsB req1.name 0 = true
  · rw [if_pos hex] at h1
    exact absurd h1 (by simp [Prod.ext_iff])
  rw [if_neg hex] at h1
  by_cases hd : 200 < req1.description.length
  · rw [if_pos hd] at h1
    exact absurd h1 (by simp [Prod.ext_iff])
  rw [if_neg hd] at h1
  have hs' : s' =
      { data := (s.autoIncrementID,
                 { id := s.autoIncrementID, name := req1.name,
                   description := req1.description,
                   isActive := req1.isActive, createdAt := now1 }) :: s.data,
        autoIncrementID := s.autoIncrementID + 1 } :=
    (congrArg Prod.snd h1).symm
  have hctr : (1 : Int) ≤ s.autoIncrementID := (reachable_inv hs).1
  have ht2 : ¬ trimSpace req2.name = [] := fun hh =>
    ht ((eqFold_trim_nil req1.name req2.name hfold).2 hh)
  have hl2 : ¬(req2.name.length < 3 ∨ 50 < req2.name.length) := by
    have hlen := eqFold_length req1.name req2.name hfold
    omega
  have hne0 : s.autoIncrementID ≠ 0 := by omega
  have hex2 : s'.nameExistsB req2.name 0 = true := by
    rw [hs']
    simp [ModuleRepository.nameExistsB, hfold, hne0]
  rw [createModule_unfold, if_neg ht2, if_neg hl2, if_pos hex2]

/-- C3 witness: creating Inventory then inventory on the fresh repository
yields ErrNameExists on the second create. -/
theorem c3_witness :
    (ModuleService.CreateModule
        { data := [(1, { id := 1, name := "Inventory".toList,
                         description := [], isActive := true,
                         createdAt := 0 })],
          autoIncrementID := 2 }
        { name := "inventory".toList, description := [], isActive := true }
        1).1 = .error .nameExists :=
  c3_case_insensitive_conflict NewModuleRepository Reachable.new
    { name := "Inventory".toList, description := [], isActive := true }
    { name := "inventory".toList, description := [], isActive := true }
    0 1
    { id := 1, name := "Inventory".toList, description := [],
      isActive := true, createdAt := 0 }
    { data := [(1, { id := 1, name := "Inventory".toList, description := [],
                     isActive := true, createdAt := 0 })],
      autoIncrementID := 2 }
    rfl rfl

end GoDi
